import Mathlib

/-!
Verification development for the Weather-app repository.

The embedding covers:
  * the presentation helpers `getBackgroundGradient` and `getUvLabel`
    from `src/components/WeatherDashboard.tsx`;
  * the client dashboard state and `fetchWeather` flow (the proxy-enabled
    revision of `WeatherDashboard.tsx`, which selects between the direct
    weatherstack URL on localhost and the `/api/weather` proxy otherwise);
  * the serverless proxy handler from `api/weather.js`.

JavaScript string semantics (`String.prototype.includes`, `toLowerCase`,
truthiness of strings, `||` defaulting) are modelled explicitly below.
-/

set_option autoImplicit false

/-! ## JavaScript string primitives -/

/-- `charsMatchAt needle hay` is true when `needle` is an initial segment of
`hay` (character lists). -/
def charsMatchAt : List Char → List Char → Bool
  | [], _ => true
  | _ :: _, [] => false
  | a :: as, b :: bs => a == b && charsMatchAt as bs

/-- `charsOccur needle hay` is true when `needle` occurs contiguously
somewhere inside `hay`. -/
def charsOccur (needle : List Char) : List Char → Bool
  | [] => charsMatchAt needle []
  | b :: bs => charsMatchAt needle (b :: bs) || charsOccur needle bs

/-- Model of JavaScript `hay.includes(needle)`. -/
def strIncludes (hay needle : String) : Bool :=
  charsOccur needle.data hay.data

/-- Model of JavaScript `s.toLowerCase()` (ASCII, which is all the source
compares against). -/
def jsToLower (s : String) : String :=
  ⟨s.data.map Char.toLower⟩

/-- Model of JavaScript `v || d` on an optional string: `undefined` and the
empty string are falsy and yield the default `d`. -/
def jsStrOr (v : Option String) (d : String) : String :=
  match v with
  | none => d
  | some s => if s == "" then d else s

/-- Truthiness test used by `api/weather.js` on `req.query.query` and
`process.env.WEATHER_KEY`: a missing value and the empty string are falsy. -/
def jsFalsyOptStr : Option String → Bool
  | none => true
  | some s => s == ""

/-- Whitespace stripped by JavaScript `trim` (the ASCII part, which covers
every string the dashboard handles). -/
def isJsSpace (c : Char) : Bool :=
  c == ' ' || c == '\t' || c == '\n' || c == '\r' || c.toNat == 11 || c.toNat == 12

/-- Model of JavaScript `s.trim()`. -/
def jsTrim (s : String) : String :=
  ⟨((s.data.dropWhile isJsSpace).reverse.dropWhile isJsSpace).reverse⟩

/-! ## Presentation mapping (`WeatherDashboard.tsx`) -/

/-- `getBackgroundGradient` from `WeatherDashboard.tsx`: lower-cases the
description and matches substrings in the source's order, first match wins. -/
def getBackgroundGradient (description : String) (isDay : Bool) : String :=
  let desc := jsToLower description
  if strIncludes desc "thunder" || strIncludes desc "storm" then
    "from-gray-800 via-slate-800 to-gray-900"
  else if strIncludes desc "snow" || strIncludes desc "blizzard" || strIncludes desc "sleet" then
    "from-indigo-300 via-blue-200 to-slate-300"
  else if strIncludes desc "rain" || strIncludes desc "drizzle" || strIncludes desc "shower" then
    "from-slate-600 via-gray-600 to-slate-800"
  else if strIncludes desc "fog" || strIncludes desc "mist" || strIncludes desc "haze" then
    "from-gray-400 via-slate-400 to-gray-500"
  else if strIncludes desc "overcast" || strIncludes desc "cloudy" then
    "from-slate-700 via-gray-700 to-slate-900"
  else if strIncludes desc "partly cloudy" then
    (if isDay then "from-sky-400 via-blue-400 to-slate-500"
     else "from-indigo-800 via-slate-800 to-gray-900")
  else if strIncludes desc "clear" || strIncludes desc "sunny" then
    (if isDay then "from-blue-400 via-sky-400 to-blue-600"
     else "from-indigo-900 via-purple-900 to-slate-900")
  else
    (if isDay then "from-sky-500 via-blue-500 to-cyan-500"
     else "from-slate-800 via-indigo-900 to-gray-900")

/-- Result record of `getUvLabel`. -/
structure UvInfo where
  label : String
  color : String
deriving DecidableEq

/-- `getUvLabel` from `WeatherDashboard.tsx`. -/
def getUvLabel (uv : Int) : UvInfo :=
  if uv ≤ 2 then ⟨"Low", "text-green-300"⟩
  else if uv ≤ 5 then ⟨"Moderate", "text-yellow-300"⟩
  else if uv ≤ 7 then ⟨"High", "text-orange-300"⟩
  else if uv ≤ 10 then ⟨"Very High", "text-red-300"⟩
  else ⟨"Extreme", "text-pink-300"⟩

/-! ## Client data model (`WeatherDashboard.tsx` interfaces) -/

/-- `WeatherData.request` from `WeatherDashboard.tsx`. -/
structure WRequest where
  query : String
deriving DecidableEq

/-- `WeatherData.location` from `WeatherDashboard.tsx`. -/
structure WLocation where
  name : String
  country : String
  region : String
  localtime : String
  utc_offset : String
deriving DecidableEq

/-- `WeatherData.current` from `WeatherDashboard.tsx`. -/
structure WCurrent where
  temperature : Int
  weather_descriptions : List String
  weather_icons : List String
  weather_code : Int
  wind_speed : Int
  wind_dir : String
  humidity : Int
  feelslike : Int
  uv_index : Int
  visibility : Int
  pressure : Int
  cloudcover : Int
  is_day : String
deriving DecidableEq

/-- The `WeatherData` interface from `WeatherDashboard.tsx`. -/
structure WeatherData where
  request : WRequest
  location : WLocation
  current : WCurrent
deriving DecidableEq

/-- The `error` object of the `ApiError` interface.  `info` is optional
because the envelope arrives as untyped JSON and may omit it. -/
structure ApiErrorDetail where
  code : Int
  type : String
  info : Option String
deriving DecidableEq

/-- The `ApiError` interface from `WeatherDashboard.tsx`. -/
structure ApiError where
  success : Bool
  error : ApiErrorDetail
deriving DecidableEq

/-- Severity of a toast (`Toast['type']`). -/
inductive ToastType where
  | error
  | warning
  | info
deriving DecidableEq

/-- The `Toast` interface: `id` is the `Date.now()` reading (milliseconds)
taken when the toast was enqueued. -/
structure Toast where
  id : Nat
  message : String
  type : ToastType
deriving DecidableEq

/-- The dashboard's `useState` cells, plus the persisted
`weather_last_city` localStorage key. -/
structure DashState where
  weather : Option WeatherData
  loading : Bool
  query : String
  toasts : List Toast
  locating : Bool
  lastCity : Option String
deriving DecidableEq

/-- `addToast`: appends a toast whose id is the current `Date.now()`
reading `now`. -/
def addToast (s : DashState) (now : Nat) (message : String) (t : ToastType) : DashState :=
  { s with toasts := s.toasts ++ [⟨now, message, t⟩] }

/-- `removeToast`: keeps exactly the toasts whose id differs. -/
def removeToast (s : DashState) (id : Nat) : DashState :=
  { s with toasts := s.toasts.filter (fun t => t.id != id) }

/-! ## Client fetch flow (`fetchWeather`, proxy-enabled revision) -/

/-- Outcome of the single network request made by `fetchWeather`:
a parsed body with `success:false`, a parsed success body, or a thrown
transport/parse error. -/
inductive FetchOutcome where
  | ok (w : WeatherData)
  | apiError (e : ApiErrorDetail)
  | transportError
deriving DecidableEq

/-- The user-facing message chosen by the `success === false` branch of
`fetchWeather`: code 615 and 101 map to fixed strings, any other code
surfaces `err.error.info || 'An unknown API error occurred.'`. -/
def apiErrorMessage (e : ApiErrorDetail) : String :=
  if e.code == 615 then "City not found. Please check the name and try again."
  else if e.code == 101 then "Invalid API key. Please check your .env configuration."
  else jsStrOr e.info "An unknown API error occurred."

/-- The synchronous prefix of `fetchWeather` once the empty-query guard has
passed: `setLoading(true); setWeather(null);`. -/
def fetchStart (s : DashState) : DashState :=
  { s with loading := true, weather := none }

/-- The continuation of `fetchWeather` once the request settles with
outcome `o` (`q` is the query it was invoked with, `now` the `Date.now()`
reading if a toast is enqueued).  On success the payload is stored and the
trimmed query persisted to `weather_last_city`; on an API error or a
transport error a toast is enqueued; `finally` clears the loading flag. -/
def fetchResolve (s : DashState) (q : String) (o : FetchOutcome) (now : Nat) : DashState :=
  match o with
  | .ok w => { s with weather := some w, lastCity := some (jsTrim q), loading := false }
  | .apiError e => { addToast s now (apiErrorMessage e) .error with loading := false }
  | .transportError =>
      { addToast s now "Failed to fetch weather data. Please try again." .error with
        loading := false }

/-- `encodeURIComponent`: percent-encodes every UTF-8 byte of each character
outside the unreserved set `A-Z a-z 0-9 - _ . ! ~ * ' ( )`. -/
def isUnreservedComponentChar (c : Char) : Bool :=
  c.isAlphanum || c == '-' || c == '_' || c == '.' || c == '!' || c == '~' ||
    c == '*' || c.toNat == 39 || c == '(' || c == ')'

/-- UTF-8 bytes of a code point. -/
def utf8Bytes (n : Nat) : List Nat :=
  if n < 128 then [n]
  else if n < 2048 then [192 + n / 64, 128 + n % 64]
  else if n < 65536 then [224 + n / 4096, 128 + (n / 64) % 64, 128 + n % 64]
  else [240 + n / 262144, 128 + (n / 4096) % 64, 128 + (n / 64) % 64, 128 + n % 64]

/-- Upper-case hexadecimal digit. -/
def hexDigit (n : Nat) : Char :=
  if n < 10 then Char.ofNat (48 + n) else Char.ofNat (55 + n)

/-- `%XX` encoding of one byte. -/
def pctEncodeByte (b : Nat) : List Char :=
  ['%', hexDigit (b / 16), hexDigit (b % 16)]

/-- Model of JavaScript `encodeURIComponent`. -/
def encodeURIComponent (s : String) : String :=
  ⟨(s.data.map (fun c =>
      if isUnreservedComponentChar c then [c]
      else ((utf8Bytes c.toNat).map pctEncodeByte).flatten)).flatten⟩

/-- The URL chosen by `fetchWeather`: direct weatherstack URL with the
client-held key when `window.location.hostname` is `localhost` or
`127.0.0.1`, the `/api/weather` proxy path otherwise. -/
def buildRequestUrl (hostname apiKey q : String) : String :=
  let isLocal := hostname == "localhost" || hostname == "127.0.0.1"
  if isLocal then
    "http://api.weatherstack.com/current?access_key=" ++ apiKey ++ "&query="
      ++ encodeURIComponent q
  else
    "/api/weather?query=" ++ encodeURIComponent q

/-- Whole `fetchWeather` call, atomically: returns the final state and the
URL requested (`none` when the empty-query guard returned without a
request). -/
def fetchWeather (hostname apiKey : String) (s : DashState) (q : String)
    (o : FetchOutcome) (now : Nat) : DashState × Option String :=
  if jsTrim q == "" then (s, none)
  else (fetchResolve (fetchStart s) q o now, some (buildRequestUrl hostname apiKey q))

/-! ## Dashboard step relation

Per the single-threaded event-loop model, each synchronous block of the
component runs atomically.  The steps below over-approximate the real
schedules: a resolve step may fire at any time, which covers overlapping
fetches in any interleaving. -/

/-- Initial component state; `saved` is whatever `weather_last_city` held
when the page loaded. -/
def initState (saved : Option String) : DashState :=
  { weather := none, loading := false, query := "", toasts := [],
    locating := false, lastCity := saved }

/-- Atomic state transitions of the dashboard. -/
inductive DashStep : DashState → DashState → Prop
  | fetchBegin (s : DashState) (q : String) (h : jsTrim q ≠ "") :
      DashStep s (fetchStart s)
  | fetchSettle (s : DashState) (q : String) (o : FetchOutcome) (now : Nat) :
      DashStep s (fetchResolve s q o now)
  | toastAdd (s : DashState) (now : Nat) (msg : String) (t : ToastType) :
      DashStep s (addToast s now msg t)
  | toastRemove (s : DashState) (i : Nat) :
      DashStep s (removeToast s i)
  | queryEdit (s : DashState) (q : String) :
      DashStep s { s with query := q }
  | locatingSet (s : DashState) (b : Bool) :
      DashStep s { s with locating := b }

/-- States reachable from some initial state through dashboard steps. -/
inductive Reachable : DashState → Prop
  | init (saved : Option String) : Reachable (initState saved)
  | step {s t : DashState} : Reachable s → DashStep s t → Reachable t

/-! ## Proxy handler (`api/weather.js`) -/

/-- Result of the single upstream `fetch` + `response.json()` made by the
proxy: the fetch may throw (transport error), the body may fail to parse as
JSON, or it parses to some body `b`.  The body type is a parameter because
the handler relays it without inspecting it. -/
inductive ProxyUpstream (β : Type) where
  | transportError
  | badJson
  | json (body : β)
deriving DecidableEq

/-- The structured error bodies the proxy builds itself. -/
structure ProxyErrorBody where
  success : Bool
  code : Nat
  type : String
  info : String
deriving DecidableEq

/-- Body of a proxy response: either one of the proxy's own error bodies or
the upstream body relayed unchanged. -/
inductive ProxyBody (β : Type) where
  | errorBody (e : ProxyErrorBody)
  | relayed (b : β)
deriving DecidableEq

/-- A proxy HTTP response: status, optional `Cache-Control` header, body. -/
structure ProxyResponse (β : Type) where
  status : Nat
  cacheControl : Option String
  body : ProxyBody β
deriving DecidableEq

/-- The `handler` from `api/weather.js`.  `query` is `req.query.query`,
`apiKey` is `process.env.WEATHER_KEY`; both are tested with JavaScript
truthiness, so a present-but-empty string takes the same branch as a
missing one. -/
def handler {β : Type} (query apiKey : Option String)
    (upstream : ProxyUpstream β) : ProxyResponse β :=
  if jsFalsyOptStr query then
    ⟨400, none, .errorBody ⟨false, 0, "bad_request", "Missing \"query\" parameter."⟩⟩
  else if jsFalsyOptStr apiKey then
    ⟨500, none, .errorBody ⟨false, 0, "server_error", "API key not configured on server."⟩⟩
  else
    match upstream with
    | .transportError =>
        ⟨502, none, .errorBody ⟨false, 0, "proxy_error", "Failed to reach Weatherstack API."⟩⟩
    | .badJson =>
        ⟨502, none, .errorBody ⟨false, 0, "proxy_error", "Failed to reach Weatherstack API."⟩⟩
    | .json b => ⟨200, some "s-maxage=300, stale-while-revalidate=600", .relayed b⟩

/-! ## Substring facts used to analyse the gradient branch order -/

/-- If `xs ++ ys` is an initial segment of `l`, then `ys` occurs in `l`. -/
theorem charsOccur_of_matchAt_append (xs ys l : List Char)
    (h : charsMatchAt (xs ++ ys) l = true) : charsOccur ys l = true := by
  induction xs generalizing l with
  | nil =>
    cases l with
    | nil => simpa [charsOccur] using h
    | cons b bs => simp only [charsOccur]; simp only [List.nil_append] at h; simp [h]
  | cons a as ih =>
    cases l with
    | nil => simp [charsMatchAt] at h
    | cons b bs =>
      simp only [List.cons_append, charsMatchAt, Bool.and_eq_true] at h
      have := ih bs h.2
      simp [charsOccur, this]

/-- If `xs ++ ys` occurs in `l`, then `ys` occurs in `l`. -/
theorem charsOccur_append_right (xs ys l : List Char)
    (h : charsOccur (xs ++ ys) l = true) : charsOccur ys l = true := by
  induction l with
  | nil =>
    simp only [charsOccur] at h ⊢
    cases hxs : xs with
    | nil =>
      subst hxs
      simpa using h
    | cons a as => subst hxs; simp [charsMatchAt] at h
  | cons b bs ih =>
    simp only [charsOccur, Bool.or_eq_true] at h ⊢
    rcases h with h | h
    · simpa [charsOccur] using charsOccur_of_matchAt_append xs ys (b :: bs) h
    · exact Or.inr (ih h)

/-- A string containing `"partly cloudy"` also contains `"cloudy"`. -/
theorem strIncludes_cloudy_of_partly (d : String)
    (h : strIncludes d "partly cloudy" = true) : strIncludes d "cloudy" = true := by
  unfold strIncludes at h ⊢
  have hsplit : "partly cloudy".data = "partly ".data ++ "cloudy".data := by decide
  rw [hsplit] at h
  exact charsOccur_append_right _ _ _ h

/-! ## Claim C5 -/

/-- C5: `getUvLabel` returns "Low" iff `uv ≤ 2`, "Moderate" iff
`2 < uv ≤ 5`, "High" iff `5 < uv ≤ 7`, "Very High" iff `7 < uv ≤ 10`, and
"Extreme" iff `uv > 10`; in particular at 2, 3, 7, 8 and 11. -/
theorem c5_uv_label_thresholds (uv : Int) :
    (((getUvLabel uv).label = "Low") ↔ uv ≤ 2) ∧
    (((getUvLabel uv).label = "Moderate") ↔ (2 < uv ∧ uv ≤ 5)) ∧
    (((getUvLabel uv).label = "High") ↔ (5 < uv ∧ uv ≤ 7)) ∧
    (((getUvLabel uv).label = "Very High") ↔ (7 < uv ∧ uv ≤ 10)) ∧
    (((getUvLabel uv).label = "Extreme") ↔ 10 < uv) ∧
    (getUvLabel 2).label = "Low" ∧ (getUvLabel 3).label = "Moderate" ∧
    (getUvLabel 7).label = "High" ∧ (getUvLabel 8).label = "Very High" ∧
    (getUvLabel 11).label = "Extreme" := by
  refine ⟨?_, ?_, ?_, ?_, ?_, by decide, by decide, by decide, by decide, by decide⟩ <;>
    (unfold getUvLabel; split_ifs <;> simp_all <;> omega)

/-! ## Claim C3 -/

/-- C3 fails on the code: `"Partly cloudy"` contains no storm/snow/rain/fog
substring and its lower-cased form contains `"partly cloudy"`, yet the
gradient returned is the overcast one, not the day partly-cloudy variant
(the `cloudy` check precedes the `partly cloudy` check). -/
theorem c3_counterexample :
    strIncludes (jsToLower "Partly cloudy") "partly cloudy" = true ∧
    strIncludes (jsToLower "Partly cloudy") "thunder" = false ∧
    strIncludes (jsToLower "Partly cloudy") "storm" = false ∧
    strIncludes (jsToLower "Partly cloudy") "snow" = false ∧
    strIncludes (jsToLower "Partly cloudy") "blizzard" = false ∧
    strIncludes (jsToLower "Partly cloudy") "sleet" = false ∧
    strIncludes (jsToLower "Partly cloudy") "rain" = false ∧
    strIncludes (jsToLower "Partly cloudy") "drizzle" = false ∧
    strIncludes (jsToLower "Partly cloudy") "shower" = false ∧
    strIncludes (jsToLower "Partly cloudy") "fog" = false ∧
    strIncludes (jsToLower "Partly cloudy") "mist" = false ∧
    strIncludes (jsToLower "Partly cloudy") "haze" = false ∧
    getBackgroundGradient "Partly cloudy" true = "from-slate-700 via-gray-700 to-slate-900" ∧
    getBackgroundGradient "Partly cloudy" true ≠ "from-sky-400 via-blue-400 to-slate-500" ∧
    getBackgroundGradient "Partly cloudy" false ≠ "from-indigo-800 via-slate-800 to-gray-900" := by
  decide

/-- C3 (amended): a description whose lower-cased form contains
`"partly cloudy"` and none of the earlier thunder/storm/snow/blizzard/
sleet/rain/drizzle/shower/fog/mist/haze substrings always takes the
overcast/cloudy branch (because `"partly cloudy"` contains `"cloudy"`), so
the overcast gradient is returned for either value of `is_day` and the
dedicated partly-cloudy branch is unreachable. -/
theorem c3_partly_cloudy_hits_overcast_branch (description : String) (isDay : Bool)
    (hpc : strIncludes (jsToLower description) "partly cloudy" = true)
    (h1 : strIncludes (jsToLower description) "thunder" = false)
    (h2 : strIncludes (jsToLower description) "storm" = false)
    (h3 : strIncludes (jsToLower description) "snow" = false)
    (h4 : strIncludes (jsToLower description) "blizzard" = false)
    (h5 : strIncludes (jsToLower description) "sleet" = false)
    (h6 : strIncludes (jsToLower description) "rain" = false)
    (h7 : strIncludes (jsToLower description) "drizzle" = false)
    (h8 : strIncludes (jsToLower description) "shower" = false)
    (h9 : strIncludes (jsToLower description) "fog" = false)
    (h10 : strIncludes (jsToLower description) "mist" = false)
    (h11 : strIncludes (jsToLower description) "haze" = false) :
    getBackgroundGradient description isDay = "from-slate-700 via-gray-700 to-slate-900" := by
  have hc : strIncludes (jsToLower description) "cloudy" = true :=
    strIncludes_cloudy_of_partly _ hpc
  unfold getBackgroundGradient
  simp [h1, h2, h3, h4, h5, h6, h7, h8, h9, h10, h11, hc]

/-- Witness for the amended C3 theorem at the concrete description
`"Partly cloudy"`. -/
theorem c3_witness :
    getBackgroundGradient "Partly cloudy" true = "from-slate-700 via-gray-700 to-slate-900" :=
  c3_partly_cloudy_hits_overcast_branch "Partly cloudy" true (by decide) (by decide)
    (by decide) (by decide) (by decide) (by decide) (by decide) (by decide) (by decide)
    (by decide) (by decide) (by decide)

/-! ## Claim C1 -/

/-- C1 fails on the code: with code 500 and `info` present but equal to the
empty string, the surfaced toast message is the generic fallback, not the
verbatim (empty) `info`, because `err.error.info || fallback` treats the
empty string as falsy. -/
theorem c1_counterexample :
    (fetchResolve (initState none) "Paris" (.apiError ⟨500, "other", some ""⟩) 7).toasts
        = [⟨7, "An unknown API error occurred.", .error⟩] ∧
    (some "" : Option String) ≠ none ∧ (500 : Int) ≠ 615 ∧ (500 : Int) ≠ 101 ∧
    "An unknown API error occurred." ≠ "" := by
  decide

/-- C1 (amended): the toast enqueued for a `success:false` body carries
`apiErrorMessage`: code 615 yields the fixed not-found message and code 101
the fixed invalid-credential message regardless of `info`; any other code
surfaces `info` verbatim when it is present and non-empty, and the fixed
generic fallback when `info` is absent or empty. -/
theorem c1_api_error_toast_dispatch (s : DashState) (q : String)
    (e : ApiErrorDetail) (now : Nat) :
    (fetchResolve s q (.apiError e) now).toasts
        = s.toasts ++ [⟨now, apiErrorMessage e, .error⟩] ∧
    (e.code = 615 →
      apiErrorMessage e = "City not found. Please check the name and try again.") ∧
    (e.code = 101 →
      apiErrorMessage e = "Invalid API key. Please check your .env configuration.") ∧
    (e.code ≠ 615 → e.code ≠ 101 → ∀ i : String, e.info = some i → i ≠ "" →
      apiErrorMessage e = i) ∧
    (e.code ≠ 615 → e.code ≠ 101 → (e.info = none ∨ e.info = some "") →
      apiErrorMessage e = "An unknown API error occurred.") := by
  refine ⟨by simp [fetchResolve, addToast], ?_, ?_, ?_, ?_⟩
  · intro h; simp [apiErrorMessage, h]
  · intro h; simp [apiErrorMessage, h]
  · intro h615 h101 i hi hne
    simp [apiErrorMessage, jsStrOr, h615, h101, hi, hne]
  · intro h615 h101 hinfo
    rcases hinfo with hinfo | hinfo <;> simp [apiErrorMessage, jsStrOr, h615, h101, hinfo]

/-- Witness for the amended C1 theorem: a code-615 envelope surfaces the
fixed not-found message even though its `info` says something else. -/
theorem c1_witness :
    apiErrorMessage ⟨615, "request_failed", some "Your request was unable to be processed."⟩
      = "City not found. Please check the name and try again." :=
  (c1_api_error_toast_dispatch (initState none) "Paris"
      ⟨615, "request_failed", some "Your request was unable to be processed."⟩ 7).2.1 rfl

/-! ## Claim C2 -/

/-- C2: for every non-empty trimmed query the fetch requests
`buildRequestUrl`, which is the direct weatherstack URL carrying the
client-held key exactly on the loopback hostnames `localhost` and
`127.0.0.1`, and the `/api/weather` proxy path on every other hostname. -/
theorem c2_endpoint_selection (hostname apiKey : String) (s : DashState)
    (q : String) (o : FetchOutcome) (now : Nat) (h : jsTrim q ≠ "") :
    (fetchWeather hostname apiKey s q o now).2 = some (buildRequestUrl hostname apiKey q) ∧
    ((hostname = "localhost" ∨ hostname = "127.0.0.1") →
      buildRequestUrl hostname apiKey q =
        "http://api.weatherstack.com/current?access_key=" ++ apiKey ++ "&query="
          ++ encodeURIComponent q) ∧
    (hostname ≠ "localhost" → hostname ≠ "127.0.0.1" →
      buildRequestUrl hostname apiKey q = "/api/weather?query=" ++ encodeURIComponent q) := by
  refine ⟨by simp [fetchWeather, h], ?_, ?_⟩
  · rintro (h | h) <;> simp [buildRequestUrl, h]
  · intro h1 h2; simp [buildRequestUrl, h1, h2]

/-- Witness for C2 on `localhost` with query `"London"`. -/
theorem c2_witness :
    (fetchWeather "localhost" "k" (initState none) "London" .transportError 5).2
      = some ("http://api.weatherstack.com/current?access_key=" ++ "k" ++ "&query="
          ++ encodeURIComponent "London") := by
  have h := c2_endpoint_selection "localhost" "k" (initState none) "London"
    .transportError 5 (by decide)
  rw [h.1, h.2.1 (Or.inl rfl)]

/-! ## Claim C4 -/

/-- C4 fails on the code as an exact characterisation: a present-but-empty
`query` parameter still yields 400 (JavaScript `!query` is true on the
empty string), and a 502 is produced not only on transport failure but also
when the upstream body fails JSON parsing. -/
theorem c4_counterexample :
    (handler (some "") (some "k") (ProxyUpstream.json (0 : Nat))).status = 400 ∧
    (some "" : Option String) ≠ none ∧
    (handler (some "London") (some "k") (ProxyUpstream.badJson : ProxyUpstream Nat)).status
      = 502 := by
  decide

/-- C4 (amended): the proxy returns 400/`bad_request` exactly when `query`
is missing or empty; 500/`server_error` exactly when `query` is present and
non-empty but the credential is missing or empty; 502/`proxy_error` exactly
when both are present and non-empty and the upstream call throws (transport
failure or JSON parse failure); and every proxy-built error body has
`success:false` and `code:0`. -/
theorem c4_proxy_status_characterisation {β : Type} (query apiKey : Option String)
    (u : ProxyUpstream β) :
    ((handler query apiKey u).status = 400 ↔ jsFalsyOptStr query = true) ∧
    ((handler query apiKey u).status = 500 ↔
      (jsFalsyOptStr query = false ∧ jsFalsyOptStr apiKey = true)) ∧
    ((handler query apiKey u).status = 502 ↔
      (jsFalsyOptStr query = false ∧ jsFalsyOptStr apiKey = false ∧
        (u = .transportError ∨ u = .badJson))) ∧
    ((handler query apiKey u).status = 400 →
      (handler query apiKey u).body
        = .errorBody ⟨false, 0, "bad_request", "Missing \"query\" parameter."⟩) ∧
    ((handler query apiKey u).status = 500 →
      (handler query apiKey u).body
        = .errorBody ⟨false, 0, "server_error", "API key not configured on server."⟩) ∧
    ((handler query apiKey u).status = 502 →
      (handler query apiKey u).body
        = .errorBody ⟨false, 0, "proxy_error", "Failed to reach Weatherstack API."⟩) ∧
    (∀ e : ProxyErrorBody, (handler query apiKey u).body = .errorBody e →
      e.success = false ∧ e.code = 0) := by
  by_cases hq : jsFalsyOptStr query = true
  · simp [handler, hq]
  · by_cases hk : jsFalsyOptStr apiKey = true
    · simp [handler, hq, hk]
    · cases u <;> simp_all [handler]

/-- Witness for the amended C4 theorem: a present query and key with a
transport failure yield 502. -/
theorem c4_witness :
    (handler (some "London") (some "k")
        (ProxyUpstream.transportError : ProxyUpstream Nat)).status = 502 :=
  (c4_proxy_status_characterisation (some "London") (some "k")
      (ProxyUpstream.transportError : ProxyUpstream Nat)).2.2.1.mpr
    ⟨rfl, rfl, Or.inl rfl⟩

/-! ## Claim C10 -/

/-- C10: with a truthy query and a truthy credential, whenever the upstream
call returns a body that parses as JSON, the proxy responds 200 with that
body relayed unchanged and the `s-maxage=300, stale-while-revalidate=600`
cache header; the body is a type parameter, so the handler provably never
inspects it (an ApiErrorEnvelope is relayed with status 200 like any other
body). -/
theorem c10_proxy_relays_upstream_body {β : Type} (query apiKey : Option String)
    (b : β) (hq : jsFalsyOptStr query = false) (hk : jsFalsyOptStr apiKey = false) :
    handler query apiKey (.json b)
      = ⟨200, some "s-maxage=300, stale-while-revalidate=600", .relayed b⟩ := by
  simp [handler, hq, hk]

/-- Witness for C10 where the upstream body is itself a `success:false`
error envelope: it is still relayed with status 200. -/
theorem c10_witness :
    handler (some "London") (some "k")
        (ProxyUpstream.json (⟨false, ⟨615, "request_failed", some "no result"⟩⟩ : ApiError))
      = ⟨200, some "s-maxage=300, stale-while-revalidate=600",
          .relayed ⟨false, ⟨615, "request_failed", some "no result"⟩⟩⟩ :=
  c10_proxy_relays_upstream_body (some "London") (some "k")
    (⟨false, ⟨615, "request_failed", some "no result"⟩⟩ : ApiError) rfl rfl

/-! ## Claim C6 -/

/-- C6: starting a fetch with a non-empty trimmed query clears the payload
synchronously (before any resolution step can run), and consequently in
every reachable dashboard state — over-approximating all interleavings of
overlapping fetches — the loading flag is never set while a weather
payload is held. -/
theorem c6_no_stale_payload_while_loading :
    (∀ s : DashState, (fetchStart s).weather = none) ∧
    (∀ s : DashState, Reachable s → s.loading = true → s.weather = none) := by
  constructor
  · intro s; rfl
  · intro s hr
    induction hr with
    | init saved => intro _; rfl
    | step hr' hstep ih =>
      cases hstep with
      | fetchBegin q _ => intro _; rfl
      | fetchSettle q o now =>
        cases o with
        | ok w => intro hl; simp [fetchResolve] at hl
        | apiError e => intro hl; simp [fetchResolve, addToast] at hl
        | transportError => intro hl; simp [fetchResolve, addToast] at hl
      | toastAdd now msg t => intro hl; exact ih hl
      | toastRemove i => intro hl; exact ih hl
      | queryEdit q => intro hl; exact ih hl
      | locatingSet b => intro hl; exact ih hl

/-- Witness for C6 at the state reached by starting a fetch for
`"London"` from a fresh dashboard. -/
theorem c6_witness : (fetchStart (initState none)).weather = none := by
  have hreach : Reachable (fetchStart (initState none)) :=
    Reachable.step (Reachable.init none)
      (DashStep.fetchBegin (initState none) "London" (by decide))
  exact c6_no_stale_payload_while_loading.2 _ hreach rfl

/-! ## Claim C7 -/

/-- C7: after a fetch with a non-empty trimmed query, the success outcome
persists the trimmed query to `weather_last_city`; the typed-API-error and
transport-failure outcomes leave the persisted key unchanged, enqueue
exactly one toast, and keep the payload cleared. -/
theorem c7_persist_on_success_only (s : DashState) (q : String) (w : WeatherData)
    (e : ApiErrorDetail) (now : Nat) (_h : jsTrim q ≠ "") :
    (fetchResolve (fetchStart s) q (.ok w) now).lastCity = some (jsTrim q) ∧
    (fetchResolve (fetchStart s) q (.apiError e) now).lastCity = s.lastCity ∧
    (fetchResolve (fetchStart s) q .transportError now).lastCity = s.lastCity ∧
    (fetchResolve (fetchStart s) q (.apiError e) now).weather = none ∧
    (fetchResolve (fetchStart s) q .transportError now).weather = none ∧
    (fetchResolve (fetchStart s) q (.apiError e) now).toasts
        = s.toasts ++ [⟨now, apiErrorMessage e, .error⟩] ∧
    (fetchResolve (fetchStart s) q .transportError now).toasts
        = s.toasts ++ [⟨now, "Failed to fetch weather data. Please try again.", .error⟩] :=
  ⟨rfl, rfl, rfl, rfl, rfl, rfl, rfl⟩

/-- A concrete `WeatherData` payload used by witnesses. -/
def wSample : WeatherData :=
  ⟨⟨"Paris"⟩,
   ⟨"Paris", "France", "Ile-de-France", "2026-10-12 10:00", "+2.0"⟩,
   ⟨18, ["Partly cloudy"], ["icon-url"], 116, 9, "NW", 60, 18, 4, 10, 1015, 50, "yes"⟩⟩

/-- Witness for C7: a successful fetch for `"  Paris "` persists
`"Paris"`. -/
theorem c7_witness :
    (fetchResolve (fetchStart (initState none)) "  Paris " (.ok wSample) 3).lastCity
      = some "Paris" := by
  have h := c7_persist_on_success_only (initState none) "  Paris " wSample
    ⟨500, "t", none⟩ 3 (by decide)
  rw [h.1]
  decide

/-! ## Claim C8 -/

/-- C8: a query whose trimmed form is empty short-circuits: no request URL
is produced and the state — loading flag, payload, toast queue, persisted
key — is returned exactly unchanged. -/
theorem c8_empty_query_noop (hostname apiKey : String) (s : DashState)
    (q : String) (o : FetchOutcome) (now : Nat) (h : jsTrim q = "") :
    fetchWeather hostname apiKey s q o now = (s, none) := by
  simp [fetchWeather, h]

/-- Witness for C8 on the all-whitespace query `"   "`. -/
theorem c8_witness :
    fetchWeather "localhost" "k" (initState (some "Paris")) "   " .transportError 9
      = (initState (some "Paris"), none) :=
  c8_empty_query_noop "localhost" "k" (initState (some "Paris")) "   "
    .transportError 9 (by decide)

/-! ## Claim C9 -/

/-- C9 is violated by the code: toast ids come from `Date.now()`, so two
toasts enqueued during the same millisecond receive the same id — the ids
are neither pairwise distinct nor strictly increasing, and removing by
that id dismisses both.  (Insertion order itself is preserved: the queue
is appended at the tail.) -/
theorem c9_toast_id_collision :
    (addToast (addToast (initState none) 1700000000000
          "City not found. Please check the name and try again." .error)
        1700000000000 "Failed to fetch weather data. Please try again." .error).toasts
      = [⟨1700000000000, "City not found. Please check the name and try again.", .error⟩,
         ⟨1700000000000, "Failed to fetch weather data. Please try again.", .error⟩] ∧
    (removeToast (addToast (addToast (initState none) 1700000000000
            "City not found. Please check the name and try again." .error)
          1700000000000 "Failed to fetch weather data. Please try again." .error)
        1700000000000).toasts = [] := by
  constructor <;> rfl
